import Mathlib

/-!
Verification of the form-rendering layer: data model, value coercion,
field rendering, form orchestration and error presentation, embedded
from src/src/Form.tsx, src/src/components/FormField.tsx and
src/src/helpers/getFieldProps.ts.
-/

namespace FormTask

/-- Modelled from the spec: a FieldValue is a tagged union of string, number
and null (null denotes unset); the missing interfaces module declares it.
Numbers are modelled as exact integers, faithful within double precision. -/
inductive FormValue where
  | str : String → FormValue
  | num : Int → FormValue
  | null : FormValue
deriving DecidableEq, Repr

/-- Modelled from the spec: a ValuesMapping from field key to FieldValue,
represented as an association list with at most one entry per key, the
extent of a JS object. -/
abbrev FormValues := List (String × FormValue)

/-- Modelled from the spec: a field error entry is one error string or a
list of error strings. -/
abbrev FieldErrorValue := String ⊕ List String

/-- Modelled from the spec: a FieldDefinition carries a unique key, a type
tag, a label, optional required, disabled and readOnly flags, and an
optional upperBound used by the rating kind; the missing interfaces module
declares it. -/
structure FormFieldDefinition where
  key : String
  type : String
  label : String
  required : Bool := false
  disabled : Bool := false
  readOnly : Bool := false
  upperBound : Option Int := none
deriving DecidableEq, Repr

/-- Modelled from the spec: the ErrorsStructure maps field keys to error
entries and reserves the non_field_errors key for form level errors. -/
structure FormErrors where
  non_field_errors : Option FieldErrorValue := none
  fieldErrors : List (String × FieldErrorValue) := []
deriving DecidableEq, Repr

/-- Object property read values[key]: none when the key is absent. -/
def lookupValues (m : FormValues) (k : String) : Option FormValue :=
  (m.find? (fun e => e.1 == k)).map (fun e => e.2)

/-- Object spread update, the merge of a mapping with a single key
override, preserving the position of an existing key as a JS spread does. -/
def setKey (m : FormValues) (k : String) (v : FormValue) : FormValues :=
  if m.any (fun e => e.1 == k) then
    m.map (fun e => if e.1 == k then (k, v) else e)
  else m ++ [(k, v)]

/-- Embedding of values[formField.key] ?? the empty string (Form.tsx,
the value prop handed to FormField): an absent or null entry resolves to
the empty string. -/
def resolveValue (values : FormValues) (k : String) : FormValue :=
  match lookupValues values k with
  | none => FormValue.str ""
  | some FormValue.null => FormValue.str ""
  | some v => v

/-- JS truthiness of an optional field errors entry as tested by
getTextFieldProps and getNumberProps: undefined and the empty string are
falsy, any array is truthy, any other string is truthy. -/
def fieldErrorsTruthy : Option FieldErrorValue → Bool
  | none => false
  | some (Sum.inl s) => !(s == "")
  | some (Sum.inr _) => true

/-- Helper text derivation: an array of field errors is joined with single
spaces, a single string is used as is. -/
def joinFieldErrors : FieldErrorValue → String
  | Sum.inl s => s
  | Sum.inr l => String.intercalate " " l

/-- JS truthiness of the optional upperBound number tested by
getRatingProps: undefined and zero are falsy. -/
def numOptTruthy : Option Int → Bool
  | none => false
  | some n => !(n == 0)

/-- Change coercion of the text and password widgets, the body of the
onChange handler built by getTextFieldProps: the callback receives the
raw event value with nullish coalescing to null. -/
def textChangeCoerce : Option String → FormValue
  | none => FormValue.null
  | some s => FormValue.str s

/-- Embedding of the JS call rawValue.replace with a plain one character
dash pattern and an empty replacement: only the FIRST occurrence of the
dash is removed. -/
def removeFirstDashAux : List Char → List Char
  | [] => []
  | c :: cs => if c == '-' then cs else c :: removeFirstDashAux cs

/-- String front end of removeFirstDashAux. -/
def removeFirstDash (s : String) : String :=
  String.mk (removeFirstDashAux s.toList)

/-- Digit value of a character in base 10. -/
def decDigitVal (c : Char) : Option Nat :=
  if c.isDigit then some (c.toNat - Char.toNat '0') else none

/-- Digit value of a character in base 16. -/
def hexDigitVal (c : Char) : Option Nat :=
  if c.isDigit then some (c.toNat - Char.toNat '0')
  else if 'a' ≤ c ∧ c ≤ 'f' then some (c.toNat - Char.toNat 'a' + 10)
  else if 'A' ≤ c ∧ c ≤ 'F' then some (c.toNat - Char.toNat 'A' + 10)
  else none

/-- Accumulation of the longest leading digit run: none when no digit was
read at all, the accumulated value otherwise; a non digit stops the scan. -/
def parseDigitsAux (radix : Nat) (dv : Char → Option Nat) :
    List Char → Option Nat → Option Nat
  | [], acc => acc
  | c :: cs, acc =>
    match dv c with
    | some d => parseDigitsAux radix dv cs (some (acc.getD 0 * radix + d))
    | none => acc

/-- Embedding of the JS parseInt with no radix argument: leading whitespace
is skipped, one leading sign is honoured, a 0x or 0X marker selects base
16, and the longest leading digit run is parsed; an empty run is NaN,
modelled as none. Arithmetic is exact, faithful within double precision. -/
def parseIntJS (s : String) : Option Int :=
  let cs := s.toList.dropWhile Char.isWhitespace
  let signed : Int × List Char :=
    match cs with
    | '-' :: rest => (-1, rest)
    | '+' :: rest => (1, rest)
    | _ => (1, cs)
  let based : Nat × (Char → Option Nat) × List Char :=
    match signed.2 with
    | '0' :: 'x' :: rest => (16, hexDigitVal, rest)
    | '0' :: 'X' :: rest => (16, hexDigitVal, rest)
    | _ => (10, decDigitVal, signed.2)
  (parseDigitsAux based.1 based.2.1 based.2.2 none).map (fun n => signed.1 * (n : Int))

/-- Change coercion of the number widget, the body of the onChange handler
built by getNumberProps: a null or empty raw value stores null; otherwise
the first dash is removed by replace and the remainder is given to
parseInt, with NaN stored as null. The try block around parseInt is dead:
neither replace nor parseInt can throw. -/
def numberChangeCoerce : Option String → FormValue
  | none => FormValue.null
  | some s =>
    if s = "" then FormValue.null
    else
      match parseIntJS (removeFirstDash s) with
      | none => FormValue.null
      | some n => FormValue.num n

/-- Change coercion of the rating widget, the body of the onChange handler
built by getRatingProps: the numeric widget value with nullish coalescing
to null. -/
def ratingChangeCoerce : Option Int → FormValue
  | none => FormValue.null
  | some n => FormValue.num n

/-- Props handed to the MUI TextField widget. The change handler is
represented by the coercion it applies to the raw event value before
calling the onChange callback; optional props the source leaves unset are
none. -/
structure TextFieldPropsM where
  id : String
  label : String
  type : Option String := none
  value : FormValue
  onChangeCoerce : Option String → FormValue
  disabled : Option Bool := none
  required : Option Bool := none
  readOnlyInput : Option Bool := none
  error : Option Bool := none
  helperText : Option String := none

/-- Props handed to the MUI Rating widget, in the same representation. -/
structure RatingPropsM where
  id : String
  emptyLabelText : String
  value : FormValue
  onChangeCoerce : Option Int → FormValue
  disabled : Option Bool := none
  readOnly : Option Bool := none
  max : Option Int := none

/-- Embedding of getTextFieldProps: the base props plus the conditionally
assigned disabled, required, readOnly, error and helperText props; the
source performs the conditional assignments sequentially on one object and
no assignment depends on another, so each prop is expressed directly. -/
def getTextFieldProps (formField : FormFieldDefinition) (value : FormValue)
    (fieldErrors : Option FieldErrorValue) : TextFieldPropsM :=
  { id := formField.key
    label := formField.label
    type := some "text"
    value := value
    onChangeCoerce := textChangeCoerce
    disabled := if formField.disabled then some true else none
    required := if formField.required then some true else none
    readOnlyInput := if formField.readOnly then some true else none
    error := if fieldErrorsTruthy fieldErrors then some true else none
    helperText :=
      if fieldErrorsTruthy fieldErrors then fieldErrors.map joinFieldErrors else none }

/-- Embedding of getNumberProps: identical to getTextFieldProps except that
no type prop is set and the change coercion is the numeric one. -/
def getNumberProps (formField : FormFieldDefinition) (value : FormValue)
    (fieldErrors : Option FieldErrorValue) : TextFieldPropsM :=
  { id := formField.key
    label := formField.label
    type := none
    value := value
    onChangeCoerce := numberChangeCoerce
    disabled := if formField.disabled then some true else none
    required := if formField.required then some true else none
    readOnlyInput := if formField.readOnly then some true else none
    error := if fieldErrorsTruthy fieldErrors then some true else none
    helperText :=
      if fieldErrorsTruthy fieldErrors then fieldErrors.map joinFieldErrors else none }

/-- Embedding of getRatingProps: the label gains a star suffix when the
field is required, and the max prop is assigned from upperBound only when
upperBound is truthy. -/
def getRatingProps (formField : FormFieldDefinition) (value : FormValue) : RatingPropsM :=
  { id := formField.key
    emptyLabelText := if formField.required then formField.label ++ " *" else formField.label
    value := value
    onChangeCoerce := ratingChangeCoerce
    disabled := if formField.disabled then some true else none
    readOnly := if formField.readOnly then some true else none
    max := if numOptTruthy formField.upperBound then formField.upperBound else none }

/-- Result of rendering one form field: exactly one widget, or the inline
alert used for unknown field types with its literal text children. -/
inductive RenderedWidget where
  | textField : TextFieldPropsM → RenderedWidget
  | rating : RatingPropsM → RenderedWidget
  | errorAlert : List String → RenderedWidget

/-- Nullish coalescing value ?? the empty string, as applied by the number
branch of FormField to its value prop. -/
def jsNullishToEmpty : FormValue → FormValue
  | FormValue.null => FormValue.str ""
  | v => v

/-- Embedding of the FormField component body: dispatch on the field type.
The password branch reuses getTextFieldProps and then overwrites the type
prop; the number branch coalesces a null value to the empty string; the
rating branch passes the value through unchanged, since the TS cast to
number or null does not change the runtime value; the default branch
returns an Alert whose children are a lone space and the interpolated
message, and never throws. -/
def renderFormField (formField : FormFieldDefinition) (value : FormValue)
    (fieldErrors : Option FieldErrorValue) : RenderedWidget :=
  if formField.type = "text" then
    RenderedWidget.textField (getTextFieldProps formField value fieldErrors)
  else if formField.type = "password" then
    RenderedWidget.textField
      { getTextFieldProps formField value fieldErrors with type := some "password" }
  else if formField.type = "number" then
    RenderedWidget.textField (getNumberProps formField (jsNullishToEmpty value) fieldErrors)
  else if formField.type = "rating" then
    RenderedWidget.rating (getRatingProps formField value)
  else
    RenderedWidget.errorAlert [" ", "Unknown field type: \"" ++ formField.type ++ "\""]

/-- Per field errors the Form forwards to FormField: the entry of the
errors structure when present and defined for the key, undefined
otherwise. -/
def fieldErrorsFor (formErrors : Option FormErrors) (k : String) : Option FieldErrorValue :=
  match formErrors with
  | none => none
  | some fe => (fe.fieldErrors.find? (fun e => e.1 == k)).map (fun e => e.2)

/-- Rendering of one field from the Form: the value prop is the resolved
values entry and the errors prop is the forwarded entry. -/
def renderFormFieldOnForm (values : FormValues) (formErrors : Option FormErrors)
    (formField : FormFieldDefinition) : RenderedWidget :=
  renderFormField formField (resolveValue values formField.key)
    (fieldErrorsFor formErrors formField.key)

/-- The list of rendered form inputs, one per field definition, in the
definition list order, embedding the map over formFields in Form.tsx. -/
def formInputs (values : FormValues) (formErrors : Option FormErrors)
    (formFields : List FormFieldDefinition) : List RenderedWidget :=
  formFields.map (renderFormFieldOnForm values formErrors)

/-- Error alerts rendered above the field list, embedding the errorAlerts
memo of Form.tsx: nothing when the errors structure or its non field
errors entry is absent or falsy (the empty string is falsy), one alert
per element for an array entry, a single alert for a truthy string. -/
def errorAlerts (formErrors : Option FormErrors) : List String :=
  match formErrors with
  | none => []
  | some fe =>
    match fe.non_field_errors with
    | none => []
    | some (Sum.inl s) => if s = "" then [] else [s]
    | some (Sum.inr l) => l

/-- Host side state of the Form: the committed values, which are React
state owned by the host, and the ref cell written by the usePrevious
effect. -/
structure FormHostState where
  values : FormValues
  prevRef : Option FormValues := none
deriving DecidableEq, Repr

/-- Value usePrevious returns during a render pass: the current ref
content; the effect only writes the ref after the render commits, so at
the first render this is undefined. -/
def usePreviousValue (s : FormHostState) : Option FormValues := s.prevRef

/-- Effect of usePrevious after a committed render pass: the ref receives
the values of that pass. -/
def usePreviousEffect (s : FormHostState) : FormHostState :=
  { s with prevRef := some s.values }

/-- The change handler a field receives from the Form: it spreads the
prevValues snapshot captured at render time (spreading undefined yields
the empty object) and overrides the edited key, and the host replaces its
committed values with the merged object. -/
def fieldChangeHandler (prevValues : Option FormValues) (k : String) (v : FormValue) :
    FormValues :=
  setKey (prevValues.getD []) k v

/-- A sequence of field edits fired within one render cycle: every handler
closure holds the same usePrevious snapshot taken when the cycle rendered,
and each invocation replaces the host values with its own merged object. -/
def runSameCycleEdits (s : FormHostState) (edits : List (String × FormValue)) :
    FormHostState :=
  edits.foldl
    (fun st e => { st with values := fieldChangeHandler (usePreviousValue s) e.1 e.2 }) s

/-- Props of the FormField component that the React.memo comparator can
inspect; the onChange closure is omitted because the comparator never
reads it. -/
structure FormFieldComponentProps where
  value : FormValue
  formField : FormFieldDefinition
  fieldErrors : Option FieldErrorValue := none
deriving DecidableEq, Repr

/-- The comparator given to React.memo in FormField.tsx: strict equality
of the value props and nothing else. -/
def formFieldPropsEqual (prevProps nextProps : FormFieldComponentProps) : Bool :=
  prevProps.value == nextProps.value

/-- React.memo recomputes the rendered output exactly when the comparator
reports the props as not equal. -/
def formFieldRecomputes (prevProps nextProps : FormFieldComponentProps) : Bool :=
  !(formFieldPropsEqual prevProps nextProps)

/-- The value the selected widget receives as its value prop. -/
def widgetValue : RenderedWidget → Option FormValue
  | RenderedWidget.textField p => some p.value
  | RenderedWidget.rating p => some p.value
  | RenderedWidget.errorAlert _ => none

theorem jsNullishToEmpty_resolveValue (values : FormValues) (k : String) :
    jsNullishToEmpty (resolveValue values k) = resolveValue values k := by
  unfold resolveValue
  cases h : lookupValues values k with
  | none => rfl
  | some v => cases v <;> rfl

/-- C1: evaluation at the failing input. The Form mounts with fields a and
b both holding the empty string, field a is edited to 1 and then field b
is edited to 2 within the same render cycle, before any re-render. Both
handler closures merge against the usePrevious snapshot of that render
pass, which is still undefined at the first render, so the mapping the
second invocation produces has no entry for a at all: the edit to a is
lost, while the claim requires both new values to be present. -/
theorem c1_same_cycle_edit_lost :
    lookupValues
      (runSameCycleEdits
        { values := [("a", FormValue.str ""), ("b", FormValue.str "")], prevRef := none }
        [("a", FormValue.str "1"), ("b", FormValue.str "2")]).values "a" = none ∧
    lookupValues
      (runSameCycleEdits
        { values := [("a", FormValue.str ""), ("b", FormValue.str "")], prevRef := none }
        [("a", FormValue.str "1"), ("b", FormValue.str "2")]).values "b" =
      some (FormValue.str "2") ∧
    (none : Option FormValue) ≠ some (FormValue.str "1") := by
  refine ⟨rfl, rfl, by decide⟩

/-- C2 counterexample: the raw input with two leading dashes. Only the
first dash is removed by replace, so parseInt sees a leading sign and the
stored value is the negative integer, while the claim requires all dashes
stripped and a non negative result. -/
theorem c2_counterexample :
    numberChangeCoerce (some "--5") = FormValue.num (-5) ∧
    ¬ (0 : Int) ≤ -5 := by
  refine ⟨rfl, by decide⟩

/-- C2 amended: for every number field the Form renders, the widget change
coercion stores null for a null or empty raw input; otherwise only the
FIRST dash character is removed and the remainder is parsed with parseInt
semantics, storing null on NaN and otherwise the parsed integer, which
may be negative when a dash survives in leading position. -/
theorem c2_amended (formField : FormFieldDefinition) (values : FormValues)
    (formErrors : Option FormErrors) (h : formField.type = "number") :
    ∃ p, renderFormFieldOnForm values formErrors formField = RenderedWidget.textField p ∧
      p.onChangeCoerce = numberChangeCoerce ∧
      numberChangeCoerce none = FormValue.null ∧
      numberChangeCoerce (some "") = FormValue.null ∧
      ∀ s, s ≠ "" →
        numberChangeCoerce (some s) =
          (parseIntJS (removeFirstDash s)).elim FormValue.null FormValue.num := by
  have n1 : formField.type ≠ "text" := by rw [h]; decide
  have n2 : formField.type ≠ "password" := by rw [h]; decide
  refine ⟨getNumberProps formField
    (jsNullishToEmpty (resolveValue values formField.key))
    (fieldErrorsFor formErrors formField.key), ?_, rfl, rfl, rfl, ?_⟩
  · unfold renderFormFieldOnForm renderFormField
    rw [if_neg n1, if_neg n2, if_pos h]
  · intro s hs
    simp only [numberChangeCoerce]
    rw [if_neg hs]
    cases hp : parseIntJS (removeFirstDash s) <;> simp [hp]

/-- C2 amended, witness: the amended theorem applied to a concrete number
field and evaluated at the raw input with two interior dashes, where only
the first dash is removed and parseInt stops at the remaining one. -/
theorem c2_amended_witness :
    (∃ p, renderFormFieldOnForm [] none
        { key := "n", type := "number", label := "N" } = RenderedWidget.textField p ∧
      p.onChangeCoerce = numberChangeCoerce ∧
      numberChangeCoerce none = FormValue.null ∧
      numberChangeCoerce (some "") = FormValue.null ∧
      ∀ s, s ≠ "" →
        numberChangeCoerce (some s) =
          (parseIntJS (removeFirstDash s)).elim FormValue.null FormValue.num) ∧
    numberChangeCoerce (some "1-2-3") = FormValue.num 12 := by
  refine ⟨c2_amended { key := "n", type := "number", label := "N" } [] none rfl, rfl⟩

/-- C4: for every number field the Form renders, the widget change
coercion maps the raw input 12-3- to the stored value 123: the first dash
is removed and parseInt reads the digit run 123, stopping at the trailing
dash, so the claimed result holds. -/
theorem c4_raw_input_coerces_to_123 (formField : FormFieldDefinition)
    (values : FormValues) (formErrors : Option FormErrors)
    (h : formField.type = "number") :
    ∃ p, renderFormFieldOnForm values formErrors formField = RenderedWidget.textField p ∧
      p.onChangeCoerce (some "12-3-") = FormValue.num 123 := by
  have n1 : formField.type ≠ "text" := by rw [h]; decide
  have n2 : formField.type ≠ "password" := by rw [h]; decide
  refine ⟨getNumberProps formField
    (jsNullishToEmpty (resolveValue values formField.key))
    (fieldErrorsFor formErrors formField.key), ?_, rfl⟩
  unfold renderFormFieldOnForm renderFormField
  rw [if_neg n1, if_neg n2, if_pos h]

/-- C4 witness: the theorem applied to a concrete number field. -/
theorem c4_raw_input_coerces_to_123_witness :
    ∃ p, renderFormFieldOnForm [] none
        { key := "n", type := "number", label := "N" } = RenderedWidget.textField p ∧
      p.onChangeCoerce (some "12-3-") = FormValue.num 123 :=
  c4_raw_input_coerces_to_123 { key := "n", type := "number", label := "N" } [] none rfl

/-- C3 counterexample: a rating field whose key has no entry in the values
mapping. The Form coalesces the missing entry to the empty string before
FormField runs, and the rating branch only casts, so the rating widget
receives the empty string and not the null the claim requires. -/
theorem c3_counterexample :
    widgetValue (renderFormFieldOnForm [] none
      { key := "r", type := "rating", label := "R" }) = some (FormValue.str "") ∧
    some (FormValue.str "") ≠ some FormValue.null := by
  refine ⟨rfl, by decide⟩

/-- C3 amended: for every values mapping and field of the four known
kinds, including rating, the value handed to the widget is the resolved
mapping entry, where an absent or null entry resolves to the empty string
and any other entry resolves to itself; the rating kind gets the same
empty string default because its branch only casts the value. -/
theorem c3_amended (values : FormValues) (formErrors : Option FormErrors)
    (formField : FormFieldDefinition)
    (h : formField.type = "text" ∨ formField.type = "password" ∨
         formField.type = "number" ∨ formField.type = "rating") :
    widgetValue (renderFormFieldOnForm values formErrors formField) =
      some (resolveValue values formField.key) ∧
    ((lookupValues values formField.key = none ∨
      lookupValues values formField.key = some FormValue.null) →
      resolveValue values formField.key = FormValue.str "") ∧
    (∀ v, lookupValues values formField.key = some v → v ≠ FormValue.null →
      resolveValue values formField.key = v) := by
  refine ⟨?_, ?_, ?_⟩
  · unfold renderFormFieldOnForm renderFormField
    rcases h with h | h | h | h
    · rw [if_pos h]
      rfl
    · have n1 : formField.type ≠ "text" := by rw [h]; decide
      rw [if_neg n1, if_pos h]
      rfl
    · have n1 : formField.type ≠ "text" := by rw [h]; decide
      have n2 : formField.type ≠ "password" := by rw [h]; decide
      rw [if_neg n1, if_neg n2, if_pos h]
      exact congrArg some (jsNullishToEmpty_resolveValue values formField.key)
    · have n1 : formField.type ≠ "text" := by rw [h]; decide
      have n2 : formField.type ≠ "password" := by rw [h]; decide
      have n3 : formField.type ≠ "number" := by rw [h]; decide
      rw [if_neg n1, if_neg n2, if_neg n3, if_pos h]
      rfl
  · intro hc
    unfold resolveValue
    rcases hc with hc | hc <;> rw [hc]
  · intro v hv hvn
    unfold resolveValue
    rw [hv]
    cases v with
    | null => exact absurd rfl hvn
    | str s => rfl
    | num n => rfl

/-- C3 amended, witness: the amended theorem applied to a concrete rating
field with an empty values mapping, evaluated to the empty string. -/
theorem c3_amended_witness :
    (widgetValue (renderFormFieldOnForm [] none
        { key := "r", type := "rating", label := "R" }) =
      some (resolveValue [] "r") ∧
    ((lookupValues [] "r" = none ∨ lookupValues [] "r" = some FormValue.null) →
      resolveValue [] "r" = FormValue.str "") ∧
    (∀ v, lookupValues [] "r" = some v → v ≠ FormValue.null →
      resolveValue [] "r" = v)) ∧
    resolveValue [] "r" = FormValue.str "" := by
  refine ⟨c3_amended [] none { key := "r", type := "rating", label := "R" }
    (Or.inr (Or.inr (Or.inr rfl))), rfl⟩

/-- C5: between two consecutive render passes, the FormField output is
recomputed exactly when the value prop is not identical to its previous
value; the comparator reads nothing else, so a change of the error text
or of the field definition alone never forces a redraw. -/
theorem c5_recompute_iff_value_changed
    (prevProps nextProps : FormFieldComponentProps) :
    formFieldRecomputes prevProps nextProps = true ↔
      prevProps.value ≠ nextProps.value := by
  simp [formFieldRecomputes, formFieldPropsEqual]

/-- C5 witness: the theorem applied at concrete props; a value change
forces recomputation, while an error and definition change with the same
value does not. -/
theorem c5_recompute_iff_value_changed_witness :
    formFieldRecomputes
      { value := FormValue.str "a",
        formField := { key := "k", type := "text", label := "K" } }
      { value := FormValue.str "b",
        formField := { key := "k", type := "text", label := "K" } } = true ∧
    formFieldRecomputes
      { value := FormValue.str "a",
        formField := { key := "k", type := "text", label := "K" } }
      { value := FormValue.str "a",
        formField := { key := "k", type := "text", label := "K2" },
        fieldErrors := some (Sum.inl "boom") } = false := by
  refine ⟨(c5_recompute_iff_value_changed _ _).mpr (by decide), by decide⟩

/-- C6: a field definition whose type is none of the four known kinds
renders as an inline alert whose children contain the literal interpolated
message; this is an ordinary return value, never a thrown fault, and the
sibling fields of the form render exactly as they would alone: the form
output splits around the unknown field. -/
theorem c6_unknown_type_inline_alert (values : FormValues)
    (formErrors : Option FormErrors) (formField : FormFieldDefinition)
    (pre post : List FormFieldDefinition)
    (h : formField.type ∉ (["text", "password", "number", "rating"] : List String)) :
    renderFormFieldOnForm values formErrors formField =
      RenderedWidget.errorAlert
        [" ", "Unknown field type: \"" ++ formField.type ++ "\""] ∧
    ("Unknown field type: \"" ++ formField.type ++ "\"") ∈
      ([" ", "Unknown field type: \"" ++ formField.type ++ "\""] : List String) ∧
    formInputs values formErrors (pre ++ formField :: post) =
      formInputs values formErrors pre ++
        RenderedWidget.errorAlert
          [" ", "Unknown field type: \"" ++ formField.type ++ "\""] ::
        formInputs values formErrors post := by
  simp only [List.mem_cons, List.not_mem_nil, or_false, not_or] at h
  obtain ⟨h1, h2, h3, h4⟩ := h
  have halert : renderFormFieldOnForm values formErrors formField =
      RenderedWidget.errorAlert
        [" ", "Unknown field type: \"" ++ formField.type ++ "\""] := by
    unfold renderFormFieldOnForm renderFormField
    rw [if_neg h1, if_neg h2, if_neg h3, if_neg h4]
  refine ⟨halert, List.mem_cons_of_mem _ (List.mem_cons_self _ _), ?_⟩
  simp only [formInputs, List.map_append, List.map_cons]
  rw [halert]

/-- C6 witness: the theorem applied to a concrete unsupported field between
a text sibling and a rating sibling. -/
theorem c6_unknown_type_inline_alert_witness :
    renderFormFieldOnForm [] none
      { key := "u", type := "unsupported_widget", label := "U" } =
      RenderedWidget.errorAlert
        [" ", "Unknown field type: \"" ++ "unsupported_widget" ++ "\""] ∧
    ("Unknown field type: \"" ++ "unsupported_widget" ++ "\"") ∈
      ([" ", "Unknown field type: \"" ++ "unsupported_widget" ++ "\""] : List String) ∧
    formInputs [] none
      ([{ key := "a", type := "text", label := "A" }] ++
        { key := "u", type := "unsupported_widget", label := "U" } ::
        [{ key := "r", type := "rating", label := "R" }]) =
      formInputs [] none [{ key := "a", type := "text", label := "A" }] ++
        RenderedWidget.errorAlert
          [" ", "Unknown field type: \"" ++ "unsupported_widget" ++ "\""] ::
        formInputs [] none [{ key := "r", type := "rating", label := "R" }] := by
  exact c6_unknown_type_inline_alert [] none
    { key := "u", type := "unsupported_widget", label := "U" }
    [{ key := "a", type := "text", label := "A" }]
    [{ key := "r", type := "rating", label := "R" }] (by decide)

/-- C7 counterexample: an errors structure whose non field errors entry is
present but equal to the empty string. JS truthiness treats the empty
string like an absent entry, so zero alerts are rendered although the
claim requires exactly one alert for a present non array entry. -/
theorem c7_counterexample :
    errorAlerts (some { non_field_errors := some (Sum.inl "") }) = [] ∧
    ([] : List String).length ≠ 1 := by
  refine ⟨rfl, by decide⟩

/-- C7 amended: no alert is rendered when the errors structure is absent,
when its non field errors entry is absent, or when that entry is the
falsy empty string; an array entry renders one alert per element in array
order; a non empty string entry renders exactly one alert. -/
theorem c7_amended :
    errorAlerts none = [] ∧
    (∀ fe : FormErrors, fe.non_field_errors = none → errorAlerts (some fe) = []) ∧
    (∀ fe : FormErrors, fe.non_field_errors = some (Sum.inl "") →
      errorAlerts (some fe) = []) ∧
    (∀ fe : FormErrors, ∀ s, s ≠ "" → fe.non_field_errors = some (Sum.inl s) →
      errorAlerts (some fe) = [s]) ∧
    (∀ fe : FormErrors, ∀ l, fe.non_field_errors = some (Sum.inr l) →
      errorAlerts (some fe) = l) := by
  refine ⟨rfl, ?_, ?_, ?_, ?_⟩
  · intro fe hf
    simp [errorAlerts, hf]
  · intro fe hf
    simp [errorAlerts, hf]
  · intro fe s hs hf
    simp [errorAlerts, hf, hs]
  · intro fe l hf
    simp [errorAlerts, hf]

/-- C7 amended, witness: the amended theorem applied to a two element
array entry, giving two alerts in order, and to a non empty string entry,
giving a single alert. -/
theorem c7_amended_witness :
    errorAlerts (some { non_field_errors := some (Sum.inr ["x", "y"]) }) = ["x", "y"] ∧
    errorAlerts (some { non_field_errors := some (Sum.inl "boom") }) = ["boom"] := by
  refine ⟨c7_amended.2.2.2.2 _ ["x", "y"] rfl,
    c7_amended.2.2.2.1 _ "boom" (by decide) rfl⟩

/-- C8 counterexample: a rating field carrying an upperBound of zero. The
attribute is present, yet the truthiness test in getRatingProps skips the
assignment, so the max prop stays unset while the claim requires it to be
set to that value. -/
theorem c8_counterexample :
    ({ key := "r", type := "rating", label := "R", upperBound := some 0 } :
        FormFieldDefinition).upperBound = some 0 ∧
    (getRatingProps
      { key := "r", type := "rating", label := "R", upperBound := some 0 }
      FormValue.null).max = none ∧
    (none : Option Int) ≠ some 0 := by
  refine ⟨rfl, rfl, by decide⟩

/-- C8 amended: the max prop of the rating widget is set to the upperBound
value exactly when upperBound is present and nonzero; an omitted or zero
upperBound leaves max unset, so the widget keeps its default maximum. -/
theorem c8_amended (formField : FormFieldDefinition) (value : FormValue) :
    (∀ ub, formField.upperBound = some ub → ub ≠ 0 →
      (getRatingProps formField value).max = some ub) ∧
    (formField.upperBound = none → (getRatingProps formField value).max = none) ∧
    (formField.upperBound = some 0 → (getRatingProps formField value).max = none) := by
  refine ⟨?_, ?_, ?_⟩
  · intro ub hub hne
    have hb : (ub == 0) = false := beq_eq_false_iff_ne.mpr hne
    simp [getRatingProps, numOptTruthy, hub, hb]
  · intro hub
    simp [getRatingProps, numOptTruthy, hub]
  · intro hub
    simp [getRatingProps, numOptTruthy, hub]

/-- C8 amended, witness: the amended theorem applied to a concrete rating
field with upperBound five, whose max prop is five, and to one without
upperBound, whose max prop stays unset. -/
theorem c8_amended_witness :
    (getRatingProps
      { key := "r", type := "rating", label := "R", upperBound := some 5 }
      FormValue.null).max = some 5 ∧
    (getRatingProps { key := "r", type := "rating", label := "R" }
      FormValue.null).max = none := by
  refine ⟨(c8_amended _ _).1 5 rfl (by decide), (c8_amended _ _).2.1 rfl⟩

/-- C9: for every field definition, value, change coercion input and
errors, the props of the password widget agree with the props the text
configuration produces for the same arguments in every component, except
that the type prop is overridden from text to password. -/
theorem c9_password_reuses_text_props (formField : FormFieldDefinition)
    (value : FormValue) (fieldErrors : Option FieldErrorValue) :
    ∃ pT pP,
      renderFormField { formField with type := "text" } value fieldErrors =
        RenderedWidget.textField pT ∧
      renderFormField { formField with type := "password" } value fieldErrors =
        RenderedWidget.textField pP ∧
      pP.id = pT.id ∧ pP.label = pT.label ∧ pP.value = pT.value ∧
      pP.onChangeCoerce = pT.onChangeCoerce ∧ pP.disabled = pT.disabled ∧
      pP.required = pT.required ∧ pP.readOnlyInput = pT.readOnlyInput ∧
      pP.error = pT.error ∧ pP.helperText = pT.helperText ∧
      pT.type = some "text" ∧ pP.type = some "password" := by
  exact ⟨_, _, rfl, rfl, rfl, rfl, rfl, rfl, rfl, rfl, rfl, rfl, rfl, rfl, rfl⟩

/-- C10: a text, password or number field whose errors entry is defined
but equal to the empty string is forwarded that entry by the Form, yet
the widget is not marked errored and receives no helper text, because the
error flag is set only for a truthy forwarded value. -/
theorem c10_empty_string_error_not_flagged (formField : FormFieldDefinition)
    (values : FormValues) (formErrors : FormErrors)
    (hk : fieldErrorsFor (some formErrors) formField.key = some (Sum.inl ""))
    (ht : formField.type = "text" ∨ formField.type = "password" ∨
      formField.type = "number") :
    ∃ p, renderFormFieldOnForm values (some formErrors) formField =
        RenderedWidget.textField p ∧
      p.error = none ∧ p.helperText = none := by
  unfold renderFormFieldOnForm renderFormField
  rw [hk]
  rcases ht with h | h | h
  · rw [if_pos h]
    exact ⟨_, rfl, rfl, rfl⟩
  · have n1 : formField.type ≠ "text" := by rw [h]; decide
    rw [if_neg n1, if_pos h]
    exact ⟨_, rfl, rfl, rfl⟩
  · have n1 : formField.type ≠ "text" := by rw [h]; decide
    have n2 : formField.type ≠ "password" := by rw [h]; decide
    rw [if_neg n1, if_neg n2, if_pos h]
    exact ⟨_, rfl, rfl, rfl⟩

/-- C10 witness: the theorem applied to a concrete text field whose
errors entry is the defined empty string. -/
theorem c10_empty_string_error_not_flagged_witness :
    ∃ p, renderFormFieldOnForm [] (some { fieldErrors := [("t", Sum.inl "")] })
        { key := "t", type := "text", label := "T" } =
        RenderedWidget.textField p ∧
      p.error = none ∧ p.helperText = none := by
  exact c10_empty_string_error_not_flagged
    { key := "t", type := "text", label := "T" } []
    { fieldErrors := [("t", Sum.inl "")] } rfl (Or.inl rfl)

end FormTask
